import Mathlib

/-!
Shallow embedding of the CH9329 HID plugin for KVMD
(`kvmd/plugins/hid/ch9329/proto.py` and `kvmd/plugins/hid/ch9329/__init__.py`).

Bytes are modelled as `Nat` (with `% 256` where the Python code wraps),
byte strings as `List Nat`.  Python code that can raise is modelled with
`Option`/`Except`.
-/

set_option autoImplicit false

namespace CH9329

/-! ## Frame codec (proto.py) -/

/-- Constant `CH9329_HEADER = [0x57, 0xAB, 0x00]`. -/
def CH9329_HEADER : List Nat := [0x57, 0xAB, 0x00]

/-- Sum of a byte list; models the accumulation loop `for i in data: sum += i`. -/
def byteSum : List Nat → Nat
  | [] => 0
  | b :: rest => b + byteSum rest

/-- Function `make_with_sum`: append the low byte of the additive sum
(taking byte 0 of the 4-byte little-endian encoding of the sum is `sum % 256`). -/
def make_with_sum (data : List Nat) : List Nat :=
  data ++ [byteSum data % 256]

/-- Function `check_with_sum`: compare the last byte against the low byte of the
sum of all preceding bytes.  On the empty string Python evaluates
`data[_l - 1]` = `data[-1]`, an out-of-range index access (IndexError);
that failure is modelled as `none`. -/
def check_with_sum (data : List Nat) : Option Bool :=
  match data.getLast? with
  | none => none
  | some lastByte => some (decide (lastByte = byteSum data.dropLast % 256))

/-- Constant `GET_INFO`: header plus bytes 0x01, 0x00. -/
def GET_INFO : List Nat := CH9329_HEADER ++ [0x01, 0x00]

/-- Constant `SEND_KB_GENERAL_DATA`: header plus bytes 0x02, 0x08. -/
def SEND_KB_GENERAL_DATA : List Nat := CH9329_HEADER ++ [0x02, 0x08]

/-- Constant `SEND_MS_ABS_DATA`: header plus bytes 0x04, 0x07, 0x02. -/
def SEND_MS_ABS_DATA : List Nat := CH9329_HEADER ++ [0x04, 0x07, 0x02]

/-- Constant `SEND_MS_REL_DATA`: header plus bytes 0x05, 0x05, 0x01. -/
def SEND_MS_REL_DATA : List Nat := CH9329_HEADER ++ [0x05, 0x05, 0x01]

/-- Constant `GET_INFO_S`: the checksummed get-info frame. -/
def GET_INFO_S : List Nat := make_with_sum GET_INFO

/-- Constant `release_mouse`: the checksummed relative frame with a four-zero
payload tail. -/
def release_mouse : List Nat := make_with_sum (SEND_MS_REL_DATA ++ [0, 0, 0, 0])

/-- Constant `CH9329_HEADER_S`, equal to the header bytes. -/
def CH9329_HEADER_S : List Nat := CH9329_HEADER

/-- Models the startswith check on byte strings. -/
def startsWith : List Nat → List Nat → Bool
  | _, [] => true
  | [], _ :: _ => false
  | a :: as, b :: bs => a == b && startsWith as bs

/-- A Python dict key: the `ERRORS_REP_CODES` dict is keyed by `int`s, while
`__process_request` looks it up with `str(code)`; the two kinds never
compare equal, exactly as in Python. -/
inductive PyKey where
  | pint (n : Nat)
  | pstr (s : String)
deriving DecidableEq

/-- Table `ERRORS_REP_CODES`: the CH9329 error-code table (int keys). -/
def ERRORS_REP_CODES : List (PyKey × String) :=
  [ (.pint 0x00, "DEF_CMD_SUCCESS"),
    (.pint 0xE1, "DEF_CMD_ERR_TIMEOUT"),
    (.pint 0xE2, "DEF_CMD_ERR_HEAD"),
    (.pint 0xE3, "DEF_CMD_ERR_CMD"),
    (.pint 0xE4, "DEF_CMD_ERR_SUM"),
    (.pint 0xE5, "DEF_CMD_ERR_PARA"),
    (.pint 0xE6, "DEF_CMD_ERR_OPERATE") ]

/-- Models a Python dict get: first matching entry or None. -/
def dictGet (d : List (PyKey × String)) (k : PyKey) : Option String :=
  (d.find? (fun p => decide (p.1 = k))).map Prod.snd

/-- Python renders `None` as the string "None" inside an f-string. -/
def pyOptStr : Option String → String
  | none => "None"
  | some s => s

/-- Rendering of `bytes.hex(' ')` used in error messages (digits are decimal
here instead of hex; only the identity of the dump matters to the engine). -/
def hexSp (l : List Nat) : String :=
  String.intercalate " " (l.map Nat.repr)

/-! ## Event model (proto.py) -/

/-- Models the pack format B (unsigned byte): the pack call raises outside
the range 0 to 255, modelled as `none`. -/
def packB (v : Int) : Option Nat :=
  if 0 ≤ v ∧ v ≤ 255 then some v.toNat else none

/-- Structure `MouseRelativeEvent` after its post-init hook has run. -/
structure MouseRelativeEvent where
  delta_x : Int
  delta_y : Int
  fixed_x : Int
  fixed_y : Int

/-- Models the MouseRelativeEvent post-init hook: asserts each delta lies in
`[-127, 127]` (modelled as `none` on assertion failure) and stores
`fixed_x = delta_x + 127`, `fixed_y = delta_y + 127`. -/
def mouseRelativeInit (dx dy : Int) : Option MouseRelativeEvent :=
  if (-127 ≤ dx ∧ dx ≤ 127) ∧ (-127 ≤ dy ∧ dy ≤ 127) then
    some ⟨dx, dy, dx + 127, dy + 127⟩
  else none

/-- Method `MouseRelativeEvent.make_down`: builds
`make_with_sum(SEND_MS_REL_DATA + struct.pack("x2Bx", delta_x, delta_y))`.
NOTE: the source packs `delta_x`/`delta_y` themselves, not the computed
`fixed_x`/`fixed_y`; format `B` raises `struct.error` on negative values. -/
def MouseRelativeEvent.make_down (e : MouseRelativeEvent) : Option (List Nat) :=
  match packB e.delta_x, packB e.delta_y with
  | some b1, some b2 => some (make_with_sum (SEND_MS_REL_DATA ++ [0, b1, b2, 0]))
  | _, _ => none

/-- Models the MouseMoveEvent post-init fixed-coordinate computation,
fixed = floor of (target + MAX) / (MAX * 2 / 4096), with Python float arithmetic
modelled by exact rationals (exact at the boundary inputs used below).
`MAX` is `MouseRange.MAX`, provided by a collaborator outside this plugin. -/
def mouseMoveFixed (MAX tgt : Int) : Int :=
  Int.floor (((tgt : ℚ) + (MAX : ℚ)) / ((MAX : ℚ) * 2 / 4096))

/-! ## Connection abstraction (`_CH3929PhyConnection.send`, `__init__.py`) -/

/-- Error message raised on a short header read: the words error response
data followed by the hex dump of the partial data. -/
def shortReadMsg (data : List Nat) : String :=
  "error response data " ++ hexSp data

/-- Second short-read message: the words error response data, the hex dump,
then wrong length and the byte count. -/
def shortReadLenMsg (data : List Nat) : String :=
  "error response data " ++ hexSp data ++ " wrong length " ++ Nat.repr data.length

/-- Method send of the phy connection class: read 5 header bytes, then one
plus the declared payload length more
bytes; a short read at either stage raises `_TempRequestError` (`.error`).
`read5` is what `tty.read(5)` returns and `readRest n` what
`tty.read(n + 1)` returns (each may be short).  The length comparison
`len(data) - 6 != _len` is Python integer arithmetic, hence over `Int`. -/
def phySend (read5 : List Nat) (readRest : Nat → List Nat) :
    Except String (List Nat) :=
  let data := read5
  if data.length < 5 then .error (shortReadMsg data)
  else
    let len := data.getD 4 0
    let data2 := data ++ readRest len
    if (data2.length : Int) - 6 ≠ (len : Int) then .error (shortReadLenMsg data2)
    else .ok data2

/-! ## Request processor (`__process_request`, `__init__.py`) -/

/-- Result of one `conn.send` call: the response bytes, or a raised
`_TempRequestError` (the only exception `send` raises). -/
inductive SendResult where
  | ok (data : List Nat)
  | raiseTemp (msg : String)

/-- The connection as an oracle: the result of the n-th `send` call
(0-based, probes included). -/
structure Conn where
  send : Nat → SendResult

/-- Models the request-error class and its two subclasses (temporary and
permanent). -/
inductive ReqError where
  | temp (msg : String)
  | perm (msg : String)

/-- The `.msg` attribute of a `_RequestError`. -/
def ReqError.msg : ReqError → String
  | .temp m => m
  | .perm m => m

/-- Models the isinstance check for the permanent subclass. -/
def ReqError.isPerm : ReqError → Bool
  | .temp _ => false
  | .perm _ => true

/-- Configuration slice of `CH9329McuHid` used by `__process_request`. -/
structure Cfg where
  commonRetries : Nat
  readRetries : Nat
  errorsThreshold : Nat
  noop : Bool

/-- Observable state threaded through `__process_request`:
the logger output (tagged with the 1-based attempt during which each line
was emitted; post-loop lines are tagged 0), the `__state_flags.update`
publications in order, the bytes handed to `conn.send` in order, the
`error_messages` buffer, the `live_log_errors` flag, the number of
`time.sleep(retries_delay)` calls, and whether a `_PermRequestError` was
ever caught. -/
structure PState where
  sendIdx : Nat
  attempt : Nat
  errorMessages : List String
  liveLogErrors : Bool
  logs : List (Nat × String)
  pubs : List (String × Bool)
  sends : List (List Nat)
  sleeps : Nat
  permCaught : Bool

/-- Initial processor state. -/
def initPState : PState :=
  { sendIdx := 0, attempt := 0, errorMessages := [], liveLogErrors := false,
    logs := [], pubs := [], sends := [], sleeps := 0, permCaught := false }

/-- Models one logger error line. -/
def pushLog (st : PState) (msg : String) : PState :=
  { st with logs := st.logs ++ [(st.attempt, msg)] }

/-- Models one state-flags update via one of the set-state helpers. -/
def pushPub (st : PState) (key : String) (v : Bool) : PState :=
  { st with pubs := st.pubs ++ [(key, v)] }

/-- One `conn.send(data)` call: record it and consult the oracle. -/
def doSend (conn : Conn) (st : PState) (data : List Nat) : PState × SendResult :=
  ({ st with sends := st.sends ++ [data], sendIdx := st.sendIdx + 1 },
   conn.send st.sendIdx)

/-- Message of the invalid-response raise: Invalid CH9329 response code with
the request and response dumps (reponse typo preserved from the source). -/
def invalidResponseMsg (request response : List Nat) : String :=
  "Invalid CH9329 response code; request=" ++ hexSp request ++
    "; reponse=" ++ hexSp response

/-- Message of the error-acknowledgement raise: CH9329 error with the looked
up description and the numeric code. -/
def ch9329ErrorMsg (repMsg : Option String) (code : Nat) : String :=
  "CH9329 error: " ++ pyOptStr repMsg ++ " code: " ++ Nat.repr code

/-- Message of the unsupported-response raise. -/
def notSupportedMsg (response : List Nat) : String :=
  "Not supported response=" ++ hexSp response

/-- Message of the fall-through raise: Invalid response from HID with both
dumps. -/
def invalidHidMsg (request response : List Nat) : String :=
  "Invalid response from HID: request=" ++ hexSp request ++
    ", response=0x" ++ hexSp response

/-- Message of the final many-errors diagnostic (apostrophe dropped from the
literal). -/
def manyErrorsMsg (request : List Nat) : String :=
  "Cant process HID request due many errors: " ++ hexSp request

/-- Outcome of the `try:` body: a `break` (success) or a raised
`_RequestError` caught by the `except` clause. -/
inductive TryOut where
  | broke
  | raised (e : ReqError)

/-- The `try:` body of `__process_request` for one response (lines 384-425).
Every raise in the body constructs a `_TempRequestError`.  The dead
`elif len(response) < 4` branch (already excluded by the first check) is
omitted.  The unused `version` string of the get-info branch is not
modelled.  The final `raise _TempRequestError("Invalid response from HID...")`
is reached from every branch that neither breaks nor raises earlier. -/
def attemptTry (conn : Conn) (st : PState) (request response : List Nat) :
    PState × TryOut :=
  if ¬ startsWith response CH9329_HEADER_S = true ∨ response.length < 4 ∨
      ¬ check_with_sum response = some true then
    -- resynchronizing probe; its own short-read error is caught by `except`
    let stp := (doSend conn st GET_INFO_S).1
    match (doSend conn st GET_INFO_S).2 with
    | .raiseTemp m => (stp, .raised (.temp m))
    | .ok _ => (stp, .raised (.temp (invalidResponseMsg request response)))
  else
    let reqCode := request.getD 3 0
    if reqCode = 0x87 then (st, .broke)
    else
      let repCode := response.getD 3 0
      if 0xC0 < repCode then
        if reqCode + 0xC0 = repCode then
          let code := response.getD 5 0
          -- ERRORS_REP_CODES.get(str(code)): str key against int keys
          let repMsg := dictGet ERRORS_REP_CODES (PyKey.pstr (Nat.repr code))
          (st, .raised (.temp (ch9329ErrorMsg repMsg code)))
        else (st, .raised (.temp (invalidHidMsg request response)))
      else if 0x80 < repCode then
        if reqCode + 0x80 = repCode then
          if reqCode = 0x01 then
            let online := response.getD 6 0 != 0
            let status := response.getD 7 0
            let st := pushPub st "online" online
            let st := pushPub st "num" (status &&& 1 != 0)
            let st := pushPub st "caps" (status &&& 2 != 0)
            let st := pushPub st "scroll" (status &&& 4 != 0)
            (st, .broke)
          else if reqCode < 0x10 then (st, .broke)
          else (st, .raised (.temp (notSupportedMsg response)))
        else (st, .raised (.temp (invalidHidMsg request response)))
      else (st, .raised (.temp (invalidHidMsg request response)))

/-- The `except _RequestError` logging policy (lines 430-438): live-log the
message, or buffer it and flush the whole buffer once its length exceeds
`errors_threshold`, switching to live logging. -/
def logError (cfg : Cfg) (st : PState) (msg : String) : PState :=
  if st.liveLogErrors then pushLog st msg
  else if cfg.errorsThreshold < (st.errorMessages ++ [msg]).length then
    let st2 := (st.errorMessages ++ [msg]).foldl (fun s m => pushLog s m) st
    { st2 with errorMessages := [], liveLogErrors := true }
  else { st with errorMessages := st.errorMessages ++ [msg] }

/-- The `while common_retries and read_retries:` loop of `__process_request`.
The first argument is the current `common_retries` (also the recursion
fuel: each non-breaking iteration decrements it); `read` is
`read_retries`, which the loop never modifies.  Returns
`(error_retval, common_retries, state)` on normal exit, or `.error msg`
when the initial `conn.send(request)` — which sits before the `try:` —
raises and the exception propagates out of `__process_request`. -/
def processLoop (cfg : Cfg) (conn : Conn) (request : List Nat) :
    Nat → Nat → PState → Except String (Bool × Nat × PState)
  | 0, _, st => .ok (false, 0, st)
  | c + 1, read, st =>
    if read = 0 then .ok (false, c + 1, st)
    else
      let st := { st with attempt := st.attempt + 1 }
      if cfg.noop then
        -- `self.__set_state_online(True); break`
        .ok (false, c + 1, pushPub st "online" true)
      else
        let st2 := (doSend conn st request).1
        match (doSend conn st request).2 with
        | .raiseTemp m => .error m   -- raised outside the try: propagates
        | .ok response =>
          let st3 := (attemptTry conn st2 request response).1
          match (attemptTry conn st2 request response).2 with
          | .broke => .ok (false, c + 1, st3)
          | .raised e =>
            -- `common_retries -= 1` is the step from `c + 1` to `c`
            let st4 := logError cfg st3 e.msg
            if e.isPerm then
              .ok (true, c, { st4 with permCaught := true })
            else
              let st5 := pushPub st4 "online" false
              let st6 := if c ≠ 0 ∧ read ≠ 0 then
                  { st5 with sleeps := st5.sleeps + 1 }
                else st5
              processLoop cfg conn request c read st6

/-- Function `__process_request`: run the retry loop, then flush any
still-buffered error messages and log the final "many errors" diagnostic
when a retry counter was exhausted.  Post-loop log lines are tagged with
attempt `0`. -/
def processRequest (cfg : Cfg) (conn : Conn) (request : List Nat) :
    Except String (Bool × Nat × PState) :=
  match processLoop cfg conn request cfg.commonRetries cfg.readRetries initPState with
  | .error m => .error m
  | .ok (retval, commonLeft, st) =>
    let st := { st with attempt := 0 }
    let st := st.errorMessages.foldl (fun s m => pushLog s m) st
    let st := if commonLeft = 0 ∨ cfg.readRetries = 0 then
        pushLog st (manyErrorsMsg request)
      else st
    .ok (retval, commonLeft, st)

/-- Models the failure check in the worker loop (function `__hid_loop`),
which clears the event queue when the processor returns a falsy value:
the queue-clear policy fires exactly when the returned boolean is falsy. -/
def hidLoopClearFires (retval : Bool) : Bool := !retval

/-! ## Concrete scenarios used by the claims -/

/-- Plugin default configuration (`read_retries = 5`, `common_retries = 5`,
`errors_threshold = 5`, `noop = False`). -/
def cfgDefaults : Cfg :=
  { commonRetries := 5, readRetries := 5, errorsThreshold := 5, noop := false }

/-- Configuration with common and read retries both 2 (retry-exhaustion
scenario). -/
def cfgRetries2 : Cfg :=
  { commonRetries := 2, readRetries := 2, errorsThreshold := 5, noop := false }

/-- Configuration with errors threshold 3 and enough retries for six
consecutive errors. -/
def cfgThreshold3 : Cfg :=
  { commonRetries := 6, readRetries := 5, errorsThreshold := 3, noop := false }

/-- Single-attempt configuration. -/
def cfgOnce : Cfg :=
  { commonRetries := 1, readRetries := 1, errorsThreshold := 5, noop := false }

/-- Configuration with the noop flag set. -/
def cfgNoop : Cfg :=
  { commonRetries := 1, readRetries := 1, errorsThreshold := 5, noop := true }

/-- A response with a correct header but a wrong checksum byte
(the sum of the first five bytes is `0x103`, so the valid checksum would be
`0x03`, not `0xFF`). -/
def badSumResponse : List Nat := [0x57, 0xAB, 0x00, 0x01, 0x00, 0xFF]

/-- A connection whose every exchange returns the checksum-invalid response. -/
def connBadSum : Conn := ⟨fun _ => .ok badSumResponse⟩

/-- A family of checksum-invalid responses, distinct per send call
(valid checksum would be `(0x103 + k) % 256 ≠ 0xFF` for the `k` used). -/
def badSumResponseAt (k : Nat) : List Nat := [0x57, 0xAB, 0x00, 0x01, k, 0xFF]

/-- A connection returning a distinct checksum-invalid response on each call. -/
def connBadSumVar : Conn := ⟨fun k => .ok (badSumResponseAt k)⟩

/-- A well-formed error acknowledgement to a `0x01` (get-info) request:
command `0xC1 = 0x01 + 0xC0`, error byte `0xE1` (timeout), valid checksum. -/
def errAckResponse : List Nat := [0x57, 0xAB, 0x00, 0xC1, 0x01, 0xE1, 0xA5]

/-- A connection whose every exchange returns the error acknowledgement. -/
def connErrAck : Conn := ⟨fun _ => .ok errAckResponse⟩

/-- A connection backed by `_CH3929PhyConnection.send` over a serial port
that delivers a single byte and then nothing: every exchange raises the
short-read `_TempRequestError`. -/
def connShortRead : Conn :=
  ⟨fun _ =>
    match phySend [0x57] (fun _ => []) with
    | .ok d => .ok d
    | .error m => .raiseTemp m⟩

/-- The buffered error message of the n-th attempt (1-based) in the
`cfgThreshold3`/`connBadSumVar` scenario: attempt n sends the request as
call `2*(n-1)` and the resynchronizing probe as call `2*(n-1)+1`. -/
def thresholdMsg (request : List Nat) (n : Nat) : String :=
  invalidResponseMsg request (badSumResponseAt (2 * (n - 1)))

/-- The final processor state of a single `noop` request: one `online = true`
publication, no transport traffic, no logging. -/
def noopFinalState : PState :=
  { sendIdx := 0, attempt := 0, errorMessages := [], liveLogErrors := false,
    logs := [], pubs := [("online", true)], sends := [], sleeps := 0,
    permCaught := false }

/-! ## Helper lemmas -/

theorem foldl_pushLog_permCaught (ms : List String) :
    ∀ st : PState, (ms.foldl (fun s m => pushLog s m) st).permCaught =
      st.permCaught := by
  induction ms with
  | nil => intro st; rfl
  | cons m ms ih => intro st; exact ih (pushLog st m)

theorem logError_permCaught (cfg : Cfg) (st : PState) (m : String) :
    (logError cfg st m).permCaught = st.permCaught := by
  unfold logError
  split
  · rfl
  · split
    · exact foldl_pushLog_permCaught (st.errorMessages ++ [m]) st
    · rfl

theorem pushPub_permCaught (st : PState) (k : String) (v : Bool) :
    (pushPub st k v).permCaught = st.permCaught := rfl

theorem attemptTry_fst_permCaught (conn : Conn) (st : PState)
    (request response : List Nat) :
    (attemptTry conn st request response).1.permCaught = st.permCaught := by
  unfold attemptTry doSend
  dsimp only
  repeat' split
  all_goals rfl

theorem attemptTry_raises_temp (conn : Conn) (st : PState)
    (request response : List Nat) (e : ReqError)
    (h : (attemptTry conn st request response).2 = .raised e) :
    e.isPerm = false := by
  unfold attemptTry doSend at h
  dsimp only at h
  repeat' split at h
  all_goals dsimp only at h
  all_goals cases h
  all_goals rfl

theorem processLoop_no_perm (cfg : Cfg) (conn : Conn) (request : List Nat) :
    ∀ (fuel read : Nat) (st : PState) (rv : Bool) (cl : Nat) (stf : PState),
      processLoop cfg conn request fuel read st = .ok (rv, cl, stf) →
      rv = false ∧ stf.permCaught = st.permCaught := by
  intro fuel
  induction fuel with
  | zero =>
      intro read st rv cl stf h
      simp only [processLoop, Except.ok.injEq, Prod.mk.injEq] at h
      obtain ⟨h1, _, h3⟩ := h
      exact ⟨h1.symm, by rw [← h3]⟩
  | succ c ih =>
      intro read st rv cl stf h
      unfold processLoop at h
      split at h
      · -- read_retries is zero: the loop body never runs
        simp only [Except.ok.injEq, Prod.mk.injEq] at h
        obtain ⟨h1, _, h3⟩ := h
        exact ⟨h1.symm, by rw [← h3]⟩
      · dsimp only at h
        split at h
        · -- noop: mark online and break
          simp only [Except.ok.injEq, Prod.mk.injEq] at h
          obtain ⟨h1, _, h3⟩ := h
          exact ⟨h1.symm, by rw [← h3]; rfl⟩
        · split at h
          · -- the pre-try send raised: the exception propagates
            cases h
          · -- a response arrived; split on the try-body outcome
            split at h
            · -- break (success)
              simp only [Except.ok.injEq, Prod.mk.injEq] at h
              obtain ⟨h1, _, h3⟩ := h
              refine ⟨h1.symm, ?_⟩
              rw [← h3, attemptTry_fst_permCaught]
              rfl
            · -- a _RequestError was caught
              rename_i e heq
              split at h
              · -- isinstance(err, _PermRequestError): impossible, every
                -- raise in the try body is a _TempRequestError
                rename_i hperm
                exact absurd hperm (by simp [attemptTry_raises_temp conn _ request _ e heq])
              · obtain ⟨hrv, hpc⟩ := ih read _ rv cl stf h
                refine ⟨hrv, ?_⟩
                rw [hpc]
                split
                · simp only [pushPub, logError_permCaught,
                    attemptTry_fst_permCaught]
                  rfl
                · simp only [pushPub, logError_permCaught,
                    attemptTry_fst_permCaught]
                  rfl

theorem check_with_sum_concat (l : List Nat) (a : Nat) :
    check_with_sum (l ++ [a]) = some (decide (a = byteSum l % 256)) := by
  simp [check_with_sum, List.getLast?_concat, List.dropLast_concat]

theorem byteSum_set (l : List Nat) : ∀ i v : Nat, i < l.length →
    byteSum (l.set i v) + l.getD i 0 = byteSum l + v := by
  induction l with
  | nil => intro i v h; simp at h
  | cons x xs ih =>
      intro i v h
      cases i with
      | zero => simp [byteSum, List.set]; omega
      | succ n =>
          have hn : n < xs.length := by simpa using h
          have := ih n v hn
          simp only [List.set, byteSum, List.getD_cons_succ]
          omega

theorem set_concat_length (l : List Nat) (a v : Nat) :
    (l ++ [a]).set l.length v = l ++ [v] := by
  induction l with
  | nil => rfl
  | cons x xs ih => simp [List.set, ih]

theorem getD_concat_length (l : List Nat) (a : Nat) :
    (l ++ [a]).getD l.length 0 = a := by
  simp [List.getD_eq_getElem?_getD]

theorem getD_lt_of_mem_bound (l : List Nat) (i : Nat) (h : i < l.length)
    (hb : ∀ b ∈ l, b < 256) : l.getD i 0 < 256 := by
  have : l.getD i 0 = l.get ⟨i, h⟩ := by
    simp [List.getD_eq_getElem?_getD, List.getElem?_eq_getElem h]
  rw [this]
  exact hb _ (List.get_mem l i h)

theorem mouseMoveFixed_mul_div (M t : Int) :
    mouseMoveFixed M t = Int.floor (((t : ℚ) + M) * 4096 / (M * 2)) := by
  unfold mouseMoveFixed
  rw [div_div_eq_mul_div]

theorem mouseMoveFixed_neg_self (M : Int) : mouseMoveFixed M (-M) = 0 := by
  unfold mouseMoveFixed
  push_cast
  rw [neg_add_cancel, zero_div, Int.floor_zero]

theorem mouseMoveFixed_self (M : Int) (hM : 0 < M) : mouseMoveFixed M M = 4096 := by
  have hq : (M : ℚ) ≠ 0 := by
    exact_mod_cast hM.ne'
  unfold mouseMoveFixed
  have h : ((M : ℚ) + M) / ((M : ℚ) * 2 / 4096) = 4096 := by
    field_simp
    ring
  rw [h, show ((4096 : ℚ)) = ((4096 : Int) : ℚ) by norm_num, Int.floor_intCast]

/-! ## Claims -/

/-- Claim C3 (counterexample): with the collaborator range value
`MouseRange.MAX = 32767`, the target `(MAX, MAX)` does not encode to device
coordinate 4095 — the rescale yields exactly 4096. -/
theorem c3_max_target_encodes_4096 :
    mouseMoveFixed 32767 32767 = 4096 ∧ mouseMoveFixed 32767 32767 ≠ 4095 := by
  have h := mouseMoveFixed_self 32767 (by norm_num)
  exact ⟨h, by rw [h]; decide⟩

/-- Claim C3 (amended): for every positive range bound `MAX`, the derived
fixed device coordinate equals the floor of the linear rescale
`(target + MAX) * 4096 / (MAX * 2)`; the lower boundary `target = -MAX`
encodes to device 0, and the upper boundary `target = MAX` encodes to
device 4096 — one past the 0–4095 native range, since the rescale divides
by `MAX * 2 / 4096` without clamping. -/
theorem c3_rescale_floor_and_boundaries (M : Int) (hM : 0 < M) :
    (∀ t : Int, mouseMoveFixed M t = Int.floor (((t : ℚ) + M) * 4096 / (M * 2)))
    ∧ mouseMoveFixed M (-M) = 0
    ∧ mouseMoveFixed M M = 4096 :=
  ⟨fun t => mouseMoveFixed_mul_div M t, mouseMoveFixed_neg_self M,
    mouseMoveFixed_self M hM⟩

/-- Claim C3 (witness): the amended statement instantiated at
`MAX = 32767`, `target = 0`. -/
theorem c3_rescale_witness :
    mouseMoveFixed 32767 0 = Int.floor (((0 : ℚ) + 32767) * 4096 / (32767 * 2))
    ∧ mouseMoveFixed 32767 (-32767) = 0 ∧ mouseMoveFixed 32767 32767 = 4096 :=
  ⟨(c3_rescale_floor_and_boundaries 32767 (by norm_num)).1 0,
   (c3_rescale_floor_and_boundaries 32767 (by norm_num)).2.1,
   (c3_rescale_floor_and_boundaries 32767 (by norm_num)).2.2⟩

/-- Claim C4: for every byte sequence (header, command and payload bytes all
below 256), the built frame passes checksum verification, and flipping any
single byte of the built frame to a different byte value makes
verification return false. -/
theorem c4_checksum_roundtrip_and_flip (data : List Nat)
    (hb : ∀ b ∈ data, b < 256) :
    check_with_sum (make_with_sum data) = some true
    ∧ ∀ i, i < (make_with_sum data).length → ∀ v, v < 256 →
        v ≠ (make_with_sum data).getD i 0 →
        check_with_sum ((make_with_sum data).set i v) = some false := by
  constructor
  · simp [make_with_sum, check_with_sum_concat]
  · intro i hi v hv hne
    have hlen : (make_with_sum data).length = data.length + 1 := by
      simp [make_with_sum]
    rw [hlen] at hi
    rcases Nat.lt_succ_iff_lt_or_eq.mp hi with hlt | heq
    · -- a byte before the checksum byte is flipped
      have hset : (make_with_sum data).set i v =
          data.set i v ++ [byteSum data % 256] := by
        unfold make_with_sum
        exact List.set_append_left i v hlt
      have hgd : (make_with_sum data).getD i 0 = data.getD i 0 := by
        unfold make_with_sum
        exact List.getD_append data _ 0 i hlt
      rw [hset, check_with_sum_concat]
      have hsum := byteSum_set data i v hlt
      have hdlt := getD_lt_of_mem_bound data i hlt hb
      have hne' : v ≠ data.getD i 0 := by rw [hgd] at hne; exact hne
      have : ¬ (byteSum data % 256 = byteSum (data.set i v) % 256) := by
        intro hmod
        exact hne' (by omega)
      simp [this]
    · -- the checksum byte itself is flipped
      subst heq
      have hset : (make_with_sum data).set data.length v = data ++ [v] := by
        unfold make_with_sum
        exact set_concat_length data _ v
      have hgd : (make_with_sum data).getD data.length 0 = byteSum data % 256 := by
        unfold make_with_sum
        exact getD_concat_length data _
      rw [hgd] at hne
      rw [hset, check_with_sum_concat]
      simp [hne]

/-- Claim C4 (witness): round trip on the get-info frame, and a flip of its
first byte. -/
theorem c4_checksum_witness :
    check_with_sum (make_with_sum GET_INFO) = some true
    ∧ check_with_sum ((make_with_sum GET_INFO).set 0 0) = some false :=
  ⟨(c4_checksum_roundtrip_and_flip GET_INFO (by decide)).1,
   (c4_checksum_roundtrip_and_flip GET_INFO (by decide)).2 0 (by decide) 0
     (by decide) (by decide)⟩

/-- Claim C10: checksum verification of the empty byte string is not false
but an out-of-range index access (`data[-1]`), modelled as `none`; on every
non-empty input it is total (`isSome`). -/
theorem c10_check_with_sum_empty_crashes :
    check_with_sum [] = none
    ∧ ∀ l : List Nat, l ≠ [] → (check_with_sum l).isSome = true := by
  refine ⟨rfl, fun l h => ?_⟩
  obtain ⟨a, ha⟩ := Option.isSome_iff_exists.mp (List.getLast?_isSome.mpr h)
  simp [check_with_sum, ha]

/-- Claim C10 (witness): verification is defined on a concrete non-empty
input. -/
theorem c10_check_with_sum_witness : (check_with_sum [1]).isSome = true :=
  c10_check_with_sum_empty_crashes.2 [1] (by decide)

/-- Claim C2: the encoded relative-move frame does not carry `delta + 127`.
At `delta_x = -127` construction validates but encoding fails
(`struct.pack` format `B` rejects negatives, where the claim expects
byte 0), and at `delta = 0` the frame carries byte 0 for each axis, not
byte 127: `make_down` packs `delta_x`/`delta_y` directly, never the
computed `fixed_x`/`fixed_y`. -/
theorem c2_relative_bytes_not_delta_plus_127 :
    (mouseRelativeInit (-127) 0).isSome = true
    ∧ ((mouseRelativeInit (-127) 0).bind MouseRelativeEvent.make_down) = none
    ∧ ((mouseRelativeInit 0 0).bind MouseRelativeEvent.make_down).map
        (fun f => (f.getD 7 256, f.getD 8 256)) = some (0, 0) :=
  ⟨rfl, rfl, rfl⟩

/-- Claim C8: encoding is not total after validated construction —
`MouseRelativeEvent(-1, -1)` passes the construction-time range assertions
yet `make_down` raises (`struct.error`, modelled `none`). -/
theorem c8_make_down_partial_after_validation :
    (mouseRelativeInit (-1) (-1)).isSome = true
    ∧ ((mouseRelativeInit (-1) (-1)).bind MouseRelativeEvent.make_down) = none :=
  ⟨rfl, rfl⟩

/-- Claim C1: a short-read `_TempRequestError` raised by the connection's
send does escape the retry loop — `response = conn.send(request)` sits
before the `try:`, so the request processor propagates the exception
(`.error`) instead of returning a boolean. -/
theorem c1_short_read_error_propagates :
    processRequest cfgDefaults connShortRead GET_INFO_S =
      Except.error (shortReadMsg [0x57]) := rfl

/-- Claim C5: on an error acknowledgement (`response code = request code +
0xC0`) the raised Temporary error does not carry the table description:
the lookup `ERRORS_REP_CODES.get(str(code))` uses a string key against the
int-keyed table and always yields `None`, although the table itself maps
`0xE1` to `DEF_CMD_ERR_TIMEOUT`. -/
theorem c5_error_table_lookup_is_none :
    (processRequest cfgOnce connErrAck GET_INFO_S).toOption.map
      (fun r => (r.2.2.logs.map Prod.snd)) =
      some [ch9329ErrorMsg none 0xE1, manyErrorsMsg GET_INFO_S]
    ∧ dictGet ERRORS_REP_CODES (PyKey.pstr (Nat.repr 0xE1)) = none
    ∧ dictGet ERRORS_REP_CODES (PyKey.pint 0xE1) = some "DEF_CMD_ERR_TIMEOUT" :=
  ⟨rfl, rfl, rfl⟩

/-- Claim C6: with `common_retries = 2`, `read_retries = 2` and an exchange
whose every response fails checksum verification, the processor sends the
request exactly twice, publishes `online = false` after each of the two
Temporary errors, exhausts `common_retries` down to 0, logs the final
"many errors" diagnostic and returns failure (`false`). -/
theorem c6_retry_exhaustion :
    (processRequest cfgRetries2 connBadSum release_mouse).toOption.map
      (fun r => (r.1, r.2.1, r.2.2.pubs, r.2.2.sends.count release_mouse,
        r.2.2.logs.map Prod.snd)) =
    some (false, 0, [("online", false), ("online", false)], 2,
      [invalidResponseMsg release_mouse badSumResponse,
       invalidResponseMsg release_mouse badSumResponse,
       manyErrorsMsg release_mouse]) := rfl

/-- Claim C7: with `errors_threshold = 3` and six consecutive Temporary
errors in one request, nothing is logged during attempts 1–3; the 4th
error flushes all four buffered messages (tagged attempt 4), the buffer is
left empty, and the 5th and 6th errors are logged immediately during their
own attempts; each message appears exactly once (the six messages are
pairwise distinct). -/
theorem c7_error_threshold_burst :
    (processRequest cfgThreshold3 connBadSumVar release_mouse).toOption.map
      (fun r => (r.2.2.logs, r.2.2.errorMessages, r.2.2.liveLogErrors)) =
    some ([(4, thresholdMsg release_mouse 1), (4, thresholdMsg release_mouse 2),
           (4, thresholdMsg release_mouse 3), (4, thresholdMsg release_mouse 4),
           (5, thresholdMsg release_mouse 5), (6, thresholdMsg release_mouse 6),
           (0, manyErrorsMsg release_mouse)], [], true)
    ∧ [thresholdMsg release_mouse 1, thresholdMsg release_mouse 2,
       thresholdMsg release_mouse 3, thresholdMsg release_mouse 4,
       thresholdMsg release_mouse 5, thresholdMsg release_mouse 6].Nodup := by
  exact ⟨rfl, by decide⟩

/-- Claim C9: whenever `__process_request` returns normally, its boolean is
`true` exactly when a `_PermRequestError` was caught — and since every
raise in the body is a `_TempRequestError`, the return value is always
`false`: success and retry exhaustion alike, so the worker loop failure
check (`if not __process_request: clear_events()`) fires after every
successful request too. -/
theorem c9_retval_false_and_clear_fires (cfg : Cfg) (conn : Conn)
    (request : List Nat) (rv : Bool) (cl : Nat) (st : PState)
    (h : processRequest cfg conn request = .ok (rv, cl, st)) :
    rv = false ∧ rv = st.permCaught ∧ hidLoopClearFires rv = true := by
  unfold processRequest at h
  rcases hpl : processLoop cfg conn request cfg.commonRetries cfg.readRetries
      initPState with m | r
  · rw [hpl] at h; cases h
  · rw [hpl] at h
    obtain ⟨rv', cl', st'⟩ := r
    obtain ⟨hrv, hpc⟩ := processLoop_no_perm cfg conn request
      cfg.commonRetries cfg.readRetries initPState rv' cl' st' hpl
    dsimp only at h
    have hinit : st'.permCaught = false := hpc
    split at h
    · simp only [Except.ok.injEq, Prod.mk.injEq] at h
      obtain ⟨h1, _, h3⟩ := h
      have hstp : st.permCaught = false := by
        rw [← h3]
        show (List.foldl (fun s m => pushLog s m) _ _).permCaught = false
        rw [foldl_pushLog_permCaught]
        exact hinit
      subst h1
      exact ⟨hrv, by rw [hrv, hstp], by rw [hrv]; rfl⟩
    · simp only [Except.ok.injEq, Prod.mk.injEq] at h
      obtain ⟨h1, _, h3⟩ := h
      have hstp : st.permCaught = false := by
        rw [← h3]
        show (List.foldl (fun s m => pushLog s m) _ _).permCaught = false
        rw [foldl_pushLog_permCaught]
        exact hinit
      subst h1
      exact ⟨hrv, by rw [hrv, hstp], by rw [hrv]; rfl⟩

/-- Claim C9 (witness): a concrete `noop` request returns `false`, which
equals the (never set) permanent-error flag, and the worker loop
queue-clear check fires on it. -/
theorem c9_retval_witness :
    (false = false) ∧ (false = noopFinalState.permCaught)
    ∧ hidLoopClearFires false = true :=
  c9_retval_false_and_clear_fires cfgNoop connBadSum GET_INFO_S false 1
    noopFinalState rfl

end CH9329
